import Mathlib

/-!
Shallow embedding of the thermistor measurement module
(`src/thermistor.c`, `src/thermistor.h`).

Machine `float32_t` values are modelled as exact rationals in the
state machine and as real numbers in the transcendental sensor models.
The ADC driver, the configuration provider and the RC low-pass filter
are external collaborators of the module; they are modelled as
parameters (an `Env` record and explicit `raws` inputs).
-/

namespace Thermistor

/-- `th_status_t` of thermistor.h. -/
inductive ThStatus where
  | ok
  | error
  | error_open
  | error_short
  deriving DecidableEq, Repr

/-- `th_err_type_t` of thermistor.h. -/
inductive ThErrType where
  | floating
  | permanent
  deriving DecidableEq, Repr

/-- `th_temp_type_t` of thermistor.h. -/
inductive ThTempType where
  | ntc
  | pt1000
  | pt100
  | pt500
  deriving DecidableEq, Repr

/-- `th_hw_conn_t` of thermistor.h. -/
inductive ThHwConn where
  | low_side
  | high_side
  deriving DecidableEq, Repr

/-- `th_hw_pull_t` of thermistor.h. -/
inductive ThHwPull where
  | pull_down
  | pull_up
  | pull_both
  deriving DecidableEq, Repr

/-- One entry of the configuration table `th_cfg_t` (fields as accessed by
thermistor.c: `adc_ch`, `hw.conn`, `hw.pull_mode`, `hw.pull_up`,
`hw.pull_down`, `lpf_fc`, `type`, `ntc.beta`, `ntc.nom_val`,
`range.min`, `range.max`, `err_type`). -/
structure ThCfg where
  adc_ch : ℕ
  hw_conn : ThHwConn
  hw_pull : ThHwPull
  pull_up : ℚ
  pull_down : ℚ
  lpf_fc : ℚ
  type : ThTempType
  ntc_beta : ℚ
  ntc_nom_val : ℚ
  range_min : ℚ
  range_max : ℚ
  err_type : ThErrType
  deriving DecidableEq

/-- `th_calc_res_single_pull`: thermistor resistance from a single pull
resistor divider.  The ADC ratio is `C_max / (raw + 1)` (the `+1` guards
division by zero).  Mirrors the low-side / high-side branches of the C
code, including the `adc_ratio < 1.0f` guards. -/
def th_calc_res_single_pull (cmax : ℕ) (cfg : ThCfg) (adc_raw : ℕ) : ℚ :=
  let r : ℚ := (cmax : ℚ) / ((adc_raw : ℚ) + 1)
  if cfg.hw_conn = ThHwConn.low_side then
    if r < 1 then cfg.pull_up / (r - 1) else 1000000
  else
    if r < 1 then cfg.pull_down * (r - 1) else 0

/-- `th_calc_res_both_pull`: the both-pull branch is unimplemented in the
C source (`TODO: Implementation needed!`) and returns `0.0f`. -/
def th_calc_res_both_pull (_cfg : ThCfg) (_adc_raw : ℕ) : ℚ :=
  0

/-- `th_limit_f32`: clamp a value to `[mn, mx]`. -/
def th_limit_f32 (x mn mx : ℚ) : ℚ :=
  if x > mx then mx
  else if x < mn then mn
  else x

/-- `th_calc_resistance`: pick the divider resolver from the pull mode,
then clamp the result to the per-sensor-class resistance bounds. -/
def th_calc_resistance (cmax : ℕ) (cfg : ThCfg) (adc_raw : ℕ) : ℚ :=
  let th_res :=
    if cfg.hw_pull = ThHwPull.pull_up ∨ cfg.hw_pull = ThHwPull.pull_down then
      th_calc_res_single_pull cmax cfg adc_raw
    else
      th_calc_res_both_pull cfg adc_raw
  match cfg.type with
  | ThTempType.ntc => th_limit_f32 th_res 1 10000000
  | ThTempType.pt100 => th_limit_f32 th_res 18.52 390.48
  | ThTempType.pt500 => th_limit_f32 th_res 114.13 1937.74
  | ThTempType.pt1000 => th_limit_f32 th_res 185.20 3904.81

/-- Lower clamp bound per sensor class (the `min` arguments of
`th_limit_f32` in `th_calc_resistance`). -/
def resMin : ThTempType → ℚ
  | ThTempType.ntc => 1
  | ThTempType.pt100 => 18.52
  | ThTempType.pt500 => 114.13
  | ThTempType.pt1000 => 185.20

/-- Upper clamp bound per sensor class (the `max` arguments of
`th_limit_f32` in `th_calc_resistance`). -/
def resMax : ThTempType → ℚ
  | ThTempType.ntc => 10000000
  | ThTempType.pt100 => 390.48
  | ThTempType.pt500 => 1937.74
  | ThTempType.pt1000 => 3904.81

/-- `th_status_hndl`: fault classifier.  The local `status` starts at
`eTH_OK`; classification only runs when the error type is FLOATING, or
PERMANENT with the currently stored status OK.  When classification is
skipped the initial `eTH_OK` is returned. -/
def th_status_hndl (cfg : ThCfg) (cur : ThStatus) (temp : ℚ) : ThStatus :=
  if cfg.err_type = ThErrType.floating ∨
      (cfg.err_type = ThErrType.permanent ∧ cur = ThStatus.ok) then
    if temp > cfg.range_max then
      match cfg.type with
      | ThTempType.ntc => ThStatus.error_short
      | _ => ThStatus.error_open
    else if temp < cfg.range_min then
      match cfg.type with
      | ThTempType.ntc => ThStatus.error_open
      | _ => ThStatus.error_short
    else
      ThStatus.ok
  else
    ThStatus.ok

/-- Validity of one configuration entry, as checked inside
`th_check_cfg_table`: positive LPF cutoff, an allowed
connection/pull-mode combination, and `range.max > range.min`. -/
def ThCfgValid (c : ThCfg) : Prop :=
  c.lpf_fc > 0 ∧
  ( (c.hw_conn = ThHwConn.low_side ∧ c.hw_pull = ThHwPull.pull_up) ∨
    (c.hw_conn = ThHwConn.high_side ∧ c.hw_pull = ThHwPull.pull_down) ∨
    (c.hw_conn = ThHwConn.low_side ∧ c.hw_pull = ThHwPull.pull_both) ∨
    (c.hw_conn = ThHwConn.high_side ∧ c.hw_pull = ThHwPull.pull_both) ) ∧
  c.range_max > c.range_min

instance : DecidablePred ThCfgValid := fun c => by
  unfold ThCfgValid; infer_instance

/-- `th_check_cfg_table`: a NULL table is rejected; otherwise every entry
must be valid (the C loop breaks at the first invalid entry, so the
result is exactly "all entries valid"). -/
def th_check_cfg_table {n : ℕ} (p_cfg : Option (Fin n → ThCfg)) : ThStatus :=
  match p_cfg with
  | some t => if ∀ th : Fin n, ThCfgValid (t th) then ThStatus.ok else ThStatus.error
  | none => ThStatus.error

/-- External collaborators of the module: the ADC full-scale code
(`adc_get_raw_max`), the four resistance-to-temperature sensor models
(whose transcendental bodies live in `th_calc_ntc_temperature` and
friends, modelled over ℝ below), and the RC low-pass filter primitive
(`filter_rc_init` may fail, returning `none`; `filter_rc_hndl` steps the
filter state and produces the filtered output).  `σ` is the opaque
filter state type. -/
structure Env (σ : Type) where
  cmax : ℕ
  ntcTemp : ℚ → ℚ → ℚ → ℚ
  pt100Temp : ℚ → ℚ
  pt500Temp : ℚ → ℚ
  pt1000Temp : ℚ → ℚ
  lpfInit : ℚ → ℚ → Option σ
  lpfStep : σ → ℚ → σ × ℚ

/-- Per-channel runtime data `th_data_t`: resistance, raw temperature,
filtered temperature, LPF handle (NULL before init, hence `Option`),
and status. -/
structure ThData (σ : Type) where
  res : ℚ
  temp : ℚ
  temp_filt : ℚ
  lpf : Option σ
  status : ThStatus

/-- Module state: the `gb_is_init` flag, the stored configuration table
pointer `gp_cfg_table` (`none` = NULL), and the runtime array
`g_th_data`. -/
structure ThState (σ : Type) (n : ℕ) where
  is_init : Bool
  cfg_table : Option (Fin n → ThCfg)
  data : Fin n → ThData σ

/-- `th_calc_temperature`: writes the channel resistance
(`g_th_data[th].res = th_calc_resistance(th)`), then dispatches on the
sensor type to convert it to a temperature.  Returns the pair
(resistance written, temperature). -/
def th_calc_temperature {σ : Type} (env : Env σ) (cfg : ThCfg) (adc_raw : ℕ) :
    ℚ × ℚ :=
  let res := th_calc_resistance env.cmax cfg adc_raw
  let temp :=
    match cfg.type with
    | ThTempType.ntc => env.ntcTemp res cfg.ntc_beta cfg.ntc_nom_val
    | ThTempType.pt1000 => env.pt1000Temp res
    | ThTempType.pt100 => env.pt100Temp res
    | ThTempType.pt500 => env.pt500Temp res
  (res, temp)

/-- `th_init_filter`: initialize the channel LPF with the configured
cutoff, seeded with the channel's current temperature; on filter
failure the channel data is left as is and ERROR is returned. -/
def th_init_filter {σ : Type} (env : Env σ) (cfg : ThCfg) (d : ThData σ) :
    ThData σ × ThStatus :=
  match env.lpfInit cfg.lpf_fc d.temp with
  | some fs => ({ d with lpf := some fs }, ThStatus.ok)
  | none => (d, ThStatus.error)

/-- One channel of the `th_init` loop: compute the initial temperature
(which also writes the resistance), seed `temp` and `temp_filt`
identically, then init the LPF. -/
def th_init_ch {σ : Type} (env : Env σ) (cfg : ThCfg) (raws : ℕ → ℕ)
    (d : ThData σ) : ThData σ × ThStatus :=
  let rt := th_calc_temperature env cfg (raws cfg.adc_ch)
  th_init_filter env cfg { d with res := rt.1, temp := rt.2, temp_filt := rt.2 }

/-- The per-channel loop of `th_init`, over the list of channels still
to process; a filter failure stops the loop with ERROR. -/
def th_init_loop {σ : Type} {n : ℕ} (env : Env σ) (cfgT : Fin n → ThCfg)
    (raws : ℕ → ℕ) :
    List (Fin n) → (Fin n → ThData σ) → (Fin n → ThData σ) × ThStatus
  | [], d => (d, ThStatus.ok)
  | th :: rest, d =>
    let p := th_init_ch env (cfgT th) raws (d th)
    let d' := Function.update d th p.1
    if p.2 = ThStatus.ok then th_init_loop env cfgT raws rest d'
    else (d', ThStatus.error)

/-- `th_init`: if already initialized, OK and no change.  Otherwise the
configuration pointer is set from the provider (before validation, as in
the C code), the table is checked, the per-channel loop runs, and
`gb_is_init` is set only on full success. -/
def th_init {σ : Type} {n : ℕ} (env : Env σ)
    (provider : Option (Fin n → ThCfg)) (raws : ℕ → ℕ) (s : ThState σ n) :
    ThState σ n × ThStatus :=
  if s.is_init then (s, ThStatus.ok)
  else
    match provider, th_check_cfg_table provider with
    | some cfgT, ThStatus.ok =>
      let p := th_init_loop env cfgT raws (List.finRange n) s.data
      if p.2 = ThStatus.ok then
        ({ is_init := true, cfg_table := provider, data := p.1 }, ThStatus.ok)
      else
        ({ is_init := s.is_init, cfg_table := provider, data := p.1 },
          ThStatus.error)
    | _, _ => ({ s with cfg_table := provider }, ThStatus.error)

/-- `th_deinit`: when initialized, zero every channel's raw and filtered
temperature (resistance, LPF handle and status are not touched) and
clear the init flag; otherwise no change.  Returns OK in both cases. -/
def th_deinit {σ : Type} {n : ℕ} (s : ThState σ n) : ThState σ n × ThStatus :=
  if s.is_init then
    ({ is_init := false, cfg_table := s.cfg_table,
       data := fun th => { s.data th with temp := 0, temp_filt := 0 } },
      ThStatus.ok)
  else
    (s, ThStatus.ok)

/-- One channel of the `th_hndl` loop: recompute resistance and
temperature, step the LPF on the raw temperature (its return status is
discarded by the C code), and reclassify the status on the filtered
temperature. -/
def th_hndl_ch {σ : Type} (env : Env σ) (cfg : ThCfg) (raws : ℕ → ℕ)
    (d : ThData σ) : ThData σ :=
  let rt := th_calc_temperature env cfg (raws cfg.adc_ch)
  let ft :=
    match d.lpf with
    | some fs =>
      let p := env.lpfStep fs rt.2
      (some p.1, p.2)
    | none => (d.lpf, d.temp_filt)
  { res := rt.1, temp := rt.2, temp_filt := ft.2, lpf := ft.1,
    status := th_status_hndl cfg d.status ft.2 }

/-- `th_hndl`: the periodic tick.  Precondition `gb_is_init`; when it
fails, ERROR and no change.  Otherwise every channel is processed. -/
def th_hndl {σ : Type} {n : ℕ} (env : Env σ) (raws : ℕ → ℕ)
    (s : ThState σ n) : ThState σ n × ThStatus :=
  if s.is_init then
    match s.cfg_table with
    | some cfgT =>
      ({ s with data := fun th => th_hndl_ch env (cfgT th) raws (s.data th) },
        ThStatus.ok)
    | none => (s, ThStatus.ok)
  else
    (s, ThStatus.error)

/-- `th_get_degC`: output modelled as `Option`; `none` means the call
did not write through the pointer.  `p_null` models a NULL output
pointer argument. -/
def th_get_degC {σ : Type} {n : ℕ} (s : ThState σ n) (th : ℕ)
    (p_null : Bool) : Option ℚ × ThStatus :=
  if h : s.is_init = true ∧ p_null = false ∧ th < n then
    (some ((s.data ⟨th, h.2.2⟩).temp), ThStatus.ok)
  else
    (none, ThStatus.error)

/-- `th_get_degF`: `T[°F] = 1.8 * T[°C] + 32`. -/
def th_get_degF {σ : Type} {n : ℕ} (s : ThState σ n) (th : ℕ)
    (p_null : Bool) : Option ℚ × ThStatus :=
  if h : s.is_init = true ∧ p_null = false ∧ th < n then
    (some (1.8 * (s.data ⟨th, h.2.2⟩).temp + 32), ThStatus.ok)
  else
    (none, ThStatus.error)

/-- `th_get_kelvin`: `T[K] = T[°C] + 273.15`. -/
def th_get_kelvin {σ : Type} {n : ℕ} (s : ThState σ n) (th : ℕ)
    (p_null : Bool) : Option ℚ × ThStatus :=
  if h : s.is_init = true ∧ p_null = false ∧ th < n then
    (some ((s.data ⟨th, h.2.2⟩).temp + 273.15), ThStatus.ok)
  else
    (none, ThStatus.error)

/-- `th_get_resistance`. -/
def th_get_resistance {σ : Type} {n : ℕ} (s : ThState σ n) (th : ℕ)
    (p_null : Bool) : Option ℚ × ThStatus :=
  if h : s.is_init = true ∧ p_null = false ∧ th < n then
    (some ((s.data ⟨th, h.2.2⟩).res), ThStatus.ok)
  else
    (none, ThStatus.error)

/-- `th_get_status`: no output pointer; on valid preconditions it
returns the channel's stored status itself. -/
def th_get_status {σ : Type} {n : ℕ} (s : ThState σ n) (th : ℕ) : ThStatus :=
  if h : s.is_init = true ∧ th < n then (s.data ⟨th, h.2⟩).status
  else ThStatus.error

/-- `th_get_degC_filt`. -/
def th_get_degC_filt {σ : Type} {n : ℕ} (s : ThState σ n) (th : ℕ)
    (p_null : Bool) : Option ℚ × ThStatus :=
  if h : s.is_init = true ∧ p_null = false ∧ th < n then
    (some ((s.data ⟨th, h.2.2⟩).temp_filt), ThStatus.ok)
  else
    (none, ThStatus.error)

/-- `th_get_degF_filt`. -/
def th_get_degF_filt {σ : Type} {n : ℕ} (s : ThState σ n) (th : ℕ)
    (p_null : Bool) : Option ℚ × ThStatus :=
  if h : s.is_init = true ∧ p_null = false ∧ th < n then
    (some (1.8 * (s.data ⟨th, h.2.2⟩).temp_filt + 32), ThStatus.ok)
  else
    (none, ThStatus.error)

/-- `th_get_kelvin_filt`. -/
def th_get_kelvin_filt {σ : Type} {n : ℕ} (s : ThState σ n) (th : ℕ)
    (p_null : Bool) : Option ℚ × ThStatus :=
  if h : s.is_init = true ∧ p_null = false ∧ th < n then
    (some ((s.data ⟨th, h.2.2⟩).temp_filt + 273.15), ThStatus.ok)
  else
    (none, ThStatus.error)

end Thermistor

namespace Thermistor

/-- `th_calc_ntc_temperature`: the NTC β-equation, over ℝ.
`TH_NTC_25DEG_FACTOR` is `1/298.15`. -/
noncomputable def th_calc_ntc_temperature (rth beta rth_nom : ℝ) : ℝ :=
  1 / (1 / 298.15 + (1 / beta) * Real.log (rth / rth_nom)) - 273.15

/-- DIN EN 60751 coefficient A. -/
noncomputable def TH_PT_DIN_EN60751_A : ℝ := 3.9083e-3

/-- DIN EN 60751 coefficient B. -/
noncomputable def TH_PT_DIN_EN60751_B : ℝ := -5.775e-7

/-- `th_calc_pt100_temperature`: inverse Callendar-Van Dusen quadratic,
`R_0 = 100`. -/
noncomputable def th_calc_pt100_temperature (rth : ℝ) : ℝ :=
  (-TH_PT_DIN_EN60751_A +
      Real.sqrt (TH_PT_DIN_EN60751_A * TH_PT_DIN_EN60751_A -
        4 * TH_PT_DIN_EN60751_B * (1 - rth / 100))) /
    (2 * TH_PT_DIN_EN60751_B)

/-- `th_calc_pt500_temperature`: as pt100 with `R_0 = 500`. -/
noncomputable def th_calc_pt500_temperature (rth : ℝ) : ℝ :=
  (-TH_PT_DIN_EN60751_A +
      Real.sqrt (TH_PT_DIN_EN60751_A * TH_PT_DIN_EN60751_A -
        4 * TH_PT_DIN_EN60751_B * (1 - rth / 500))) /
    (2 * TH_PT_DIN_EN60751_B)

/-- `th_calc_pt1000_temperature`: as pt100 with `R_0 = 1000`. -/
noncomputable def th_calc_pt1000_temperature (rth : ℝ) : ℝ :=
  (-TH_PT_DIN_EN60751_A +
      Real.sqrt (TH_PT_DIN_EN60751_A * TH_PT_DIN_EN60751_A -
        4 * TH_PT_DIN_EN60751_B * (1 - rth / 1000))) /
    (2 * TH_PT_DIN_EN60751_B)

/-- Example configuration: NTC on the low side with a 10 kΩ pull-up,
valid range 0..40 °C, PERMANENT fault policy. -/
def cfgLowNtc : ThCfg :=
  { adc_ch := 0, hw_conn := ThHwConn.low_side, hw_pull := ThHwPull.pull_up,
    pull_up := 10000, pull_down := 0, lpf_fc := 1, type := ThTempType.ntc,
    ntc_beta := 3380, ntc_nom_val := 10000, range_min := 0, range_max := 40,
    err_type := ThErrType.permanent }

/-- Example configuration: PT1000 on the high side with a pull-down,
FLOATING fault policy. -/
def cfgHighPt1000 : ThCfg :=
  { adc_ch := 1, hw_conn := ThHwConn.high_side, hw_pull := ThHwPull.pull_down,
    pull_up := 0, pull_down := 10000, lpf_fc := 1, type := ThTempType.pt1000,
    ntc_beta := 0, ntc_nom_val := 0, range_min := -50, range_max := 200,
    err_type := ThErrType.floating }

/-- Example configuration: PT100 with both pull resistors. -/
def cfgBothPt100 : ThCfg :=
  { adc_ch := 2, hw_conn := ThHwConn.low_side, hw_pull := ThHwPull.pull_both,
    pull_up := 10000, pull_down := 10000, lpf_fc := 1,
    type := ThTempType.pt100, ntc_beta := 0, ntc_nom_val := 0,
    range_min := -50, range_max := 200, err_type := ThErrType.floating }

/-- An invalid configuration entry: LPF cutoff 0 Hz. -/
def badCfg : ThCfg := { cfgLowNtc with lpf_fc := 0 }

/-- A concrete collaborator environment: 12-bit ADC full scale 4096,
identity sensor models (temperature = clamped resistance), a pass-through
filter over the trivial state type. -/
def envEx : Env Unit :=
  { cmax := 4096,
    ntcTemp := fun res _ _ => res,
    pt100Temp := fun res => res,
    pt500Temp := fun res => res,
    pt1000Temp := fun res => res,
    lpfInit := fun _ _ => some (),
    lpfStep := fun fs x => (fs, x) }

/-- Zeroed channel data with a live filter handle. -/
def dataZero : ThData Unit :=
  { res := 0, temp := 0, temp_filt := 0, lpf := some (), status := ThStatus.ok }

/-- A running single-channel state over `cfgLowNtc`. -/
def sRun : ThState Unit 1 :=
  { is_init := true, cfg_table := some fun _ => cfgLowNtc,
    data := fun _ => dataZero }

/-- The pristine pre-`th_init` state: flag clear, NULL config pointer,
zeroed data. -/
def sUninit : ThState Unit 1 :=
  { is_init := false, cfg_table := none,
    data := fun _ => { dataZero with lpf := none } }

/-- A running single-channel state whose channel has a latched
ERROR_OPEN status. -/
def sFault : ThState Unit 1 :=
  { is_init := true, cfg_table := some fun _ => cfgLowNtc,
    data := fun _ => { dataZero with status := ThStatus.error_open } }

/-- The collaborator environment `envEx` with a filter primitive whose
`filter_rc_init` always fails. -/
def envLpfFail : Env Unit :=
  { envEx with lpfInit := fun _ _ => none }

end Thermistor

namespace Thermistor

/-- C4: for a single-pull topology with ratio `r = C_max/(code+1)`, a
LOW-side PULL_UP channel yields `R_u/(r-1)` when `r < 1` and `1e6` Ω
otherwise; a HIGH-side PULL_DOWN channel yields `R_d*(r-1)` when
`r < 1` and `0` Ω otherwise. -/
theorem C4_single_pull_formula (cmax adc_raw : ℕ) (cfg : ThCfg) :
    (cfg.hw_conn = ThHwConn.low_side → cfg.hw_pull = ThHwPull.pull_up →
      th_calc_res_single_pull cmax cfg adc_raw =
        (if (cmax : ℚ) / ((adc_raw : ℚ) + 1) < 1 then
          cfg.pull_up / ((cmax : ℚ) / ((adc_raw : ℚ) + 1) - 1)
        else 1000000)) ∧
    (cfg.hw_conn = ThHwConn.high_side → cfg.hw_pull = ThHwPull.pull_down →
      th_calc_res_single_pull cmax cfg adc_raw =
        (if (cmax : ℚ) / ((adc_raw : ℚ) + 1) < 1 then
          cfg.pull_down * ((cmax : ℚ) / ((adc_raw : ℚ) + 1) - 1)
        else 0)) := by
  constructor
  · intro hconn _
    simp only [th_calc_res_single_pull, hconn, if_true]
  · intro hconn _
    simp [th_calc_res_single_pull, hconn]

/-- Witness for C4 at `C_max = 4096`, code `2047` (ratio exactly 2),
both for a low-side pull-up and a high-side pull-down channel. -/
theorem C4_single_pull_formula_witness :
    (th_calc_res_single_pull 4096 cfgLowNtc 2047 =
      (if (4096 : ℚ) / ((2047 : ℚ) + 1) < 1 then
        cfgLowNtc.pull_up / ((4096 : ℚ) / ((2047 : ℚ) + 1) - 1)
      else 1000000)) ∧
    (th_calc_res_single_pull 4096 cfgHighPt1000 2047 =
      (if (4096 : ℚ) / ((2047 : ℚ) + 1) < 1 then
        cfgHighPt1000.pull_down * ((4096 : ℚ) / ((2047 : ℚ) + 1) - 1)
      else 0)) :=
  ⟨(C4_single_pull_formula 4096 2047 cfgLowNtc).1 rfl rfl,
   (C4_single_pull_formula 4096 2047 cfgHighPt1000).2 rfl rfl⟩

/-- C2 evaluated on the code: LOW side + PULL_UP, `R_u = 10` kΩ,
`C_max = 4096`, ADC code `2047 = C_max/2 - 1`, so the ratio is exactly
2; the divider resolver returns the 1e6 Ω saturation value, not
≈ 10 kΩ as the claim (and divider physics, `R_u/(r-1) = 10` kΩ)
require. -/
theorem C2_half_scale_saturates :
    (4096 : ℚ) / ((2047 : ℚ) + 1) = 2 ∧
    th_calc_res_single_pull 4096 cfgLowNtc 2047 = 1000000 ∧
    cfgLowNtc.pull_up / (((4096 : ℚ) / ((2047 : ℚ) + 1)) - 1) = 10000 := by
  refine ⟨by norm_num, ?_, ?_⟩
  · norm_num [th_calc_res_single_pull, cfgLowNtc]
  · norm_num [cfgLowNtc]

/-- C5: whenever the classifier evaluates (FLOATING, or PERMANENT with
current status OK) on a channel with a coherent range, a temperature
above the max yields SHORT for NTC and OPEN for the RTD classes, one
below the min yields OPEN for NTC and SHORT for the RTD classes, and
one within `[min, max]` yields OK. -/
theorem C5_classifier_polarity (cfg : ThCfg) (cur : ThStatus) (temp : ℚ)
    (heval : cfg.err_type = ThErrType.floating ∨
      (cfg.err_type = ThErrType.permanent ∧ cur = ThStatus.ok))
    (hrange : cfg.range_min ≤ cfg.range_max) :
    (temp > cfg.range_max →
      th_status_hndl cfg cur temp =
        (if cfg.type = ThTempType.ntc then ThStatus.error_short
         else ThStatus.error_open)) ∧
    (temp < cfg.range_min →
      th_status_hndl cfg cur temp =
        (if cfg.type = ThTempType.ntc then ThStatus.error_open
         else ThStatus.error_short)) ∧
    (cfg.range_min ≤ temp → temp ≤ cfg.range_max →
      th_status_hndl cfg cur temp = ThStatus.ok) := by
  unfold th_status_hndl
  rw [if_pos heval]
  refine ⟨?_, ?_, ?_⟩
  · intro h
    rw [if_pos h]
    cases htype : cfg.type <;> simp
  · intro h
    rw [if_neg (by push_neg; linarith), if_pos h]
    cases htype : cfg.type <;> simp
  · intro h1 h2
    rw [if_neg (by push_neg; linarith), if_neg (by push_neg; linarith)]

/-- Witness for C5: `cfgLowNtc` (PERMANENT, NTC, range 0..40) with
current status OK at 50 °C classifies as ERROR_SHORT. -/
theorem C5_classifier_polarity_witness :
    th_status_hndl cfgLowNtc ThStatus.ok 50 = ThStatus.error_short := by
  have h :=
    (C5_classifier_polarity cfgLowNtc ThStatus.ok 50
      (Or.inr ⟨rfl, rfl⟩) (by norm_num [cfgLowNtc])).1
      (by norm_num [cfgLowNtc])
  simpa [cfgLowNtc] using h

/-- C9: PULL_BOTH channels (accepted as valid by the configuration
check, on either side) always get resistance 0 from the unimplemented
both-pull resolver, so the clamped resistance is always the class
minimum, for every ADC input. -/
theorem C9_pull_both_resistance (cmax adc_raw : ℕ) (cfg : ThCfg)
    (hpull : cfg.hw_pull = ThHwPull.pull_both) :
    th_calc_res_both_pull cfg adc_raw = 0 ∧
    th_calc_resistance cmax cfg adc_raw = resMin cfg.type ∧
    (0 < cfg.lpf_fc → cfg.range_max > cfg.range_min → ThCfgValid cfg) := by
  refine ⟨rfl, ?_, ?_⟩
  · unfold th_calc_resistance
    rw [if_neg (by simp [hpull])]
    cases htype : cfg.type <;>
      simp [th_calc_res_both_pull, th_limit_f32, resMin] <;> norm_num
  · intro hfc hr
    refine ⟨hfc, ?_, hr⟩
    cases hconn : cfg.hw_conn
    · exact Or.inr (Or.inr (Or.inl ⟨rfl, hpull⟩))
    · exact Or.inr (Or.inr (Or.inr ⟨rfl, hpull⟩))

/-- Witness for C9: the PT100 both-pull channel `cfgBothPt100` always
reads as the PT100 minimum resistance and is accepted by the
configuration validation. -/
theorem C9_pull_both_resistance_witness :
    th_calc_resistance 4096 cfgBothPt100 100 = resMin cfgBothPt100.type ∧
    ThCfgValid cfgBothPt100 :=
  ⟨(C9_pull_both_resistance 4096 100 cfgBothPt100 rfl).2.1,
   (C9_pull_both_resistance 4096 100 cfgBothPt100 rfl).2.2
     (by norm_num [cfgBothPt100]) (by norm_num [cfgBothPt100])⟩

/-- C7: round-trip laws of the sensor models: each RTD model maps its
nominal resistance to exactly 0 °C, and the NTC model maps `R_nom` to
exactly 25 °C for any positive `β` and `R_nom` (the float computation
realises these exactly up to rounding; the real-number model is
exact). -/
theorem C7_sensor_round_trip :
    th_calc_pt100_temperature 100 = 0 ∧
    th_calc_pt500_temperature 500 = 0 ∧
    th_calc_pt1000_temperature 1000 = 0 ∧
    (∀ beta rth_nom : ℝ, 0 < beta → 0 < rth_nom →
      th_calc_ntc_temperature rth_nom beta rth_nom = 25) := by
  have hA : (0 : ℝ) ≤ TH_PT_DIN_EN60751_A := by
    norm_num [TH_PT_DIN_EN60751_A]
  refine ⟨?_, ?_, ?_, ?_⟩
  · unfold th_calc_pt100_temperature
    rw [show (1 : ℝ) - 100 / 100 = 0 by norm_num, mul_zero, sub_zero,
      Real.sqrt_mul_self hA]
    simp
  · unfold th_calc_pt500_temperature
    rw [show (1 : ℝ) - 500 / 500 = 0 by norm_num, mul_zero, sub_zero,
      Real.sqrt_mul_self hA]
    simp
  · unfold th_calc_pt1000_temperature
    rw [show (1 : ℝ) - 1000 / 1000 = 0 by norm_num, mul_zero, sub_zero,
      Real.sqrt_mul_self hA]
    simp
  · intro beta rth_nom _ hnom
    unfold th_calc_ntc_temperature
    rw [div_self (ne_of_gt hnom), Real.log_one, mul_zero, add_zero]
    norm_num

/-- Witness for C7's NTC law at `β = 3380`, `R_nom = 10000`. -/
theorem C7_sensor_round_trip_witness :
    0 < (3380 : ℝ) ∧ 0 < (10000 : ℝ) ∧
    th_calc_ntc_temperature 10000 3380 10000 = 25 :=
  ⟨by norm_num, by norm_num,
   C7_sensor_round_trip.2.2.2 3380 10000 (by norm_num) (by norm_num)⟩

end Thermistor

namespace Thermistor

/-- `th_init_filter` only sets the LPF handle: resistance, temperatures
and status pass through unchanged. -/
theorem th_init_filter_fields {σ : Type} (env : Env σ) (cfg : ThCfg)
    (d : ThData σ) :
    (th_init_filter env cfg d).1.status = d.status ∧
    (th_init_filter env cfg d).1.res = d.res ∧
    (th_init_filter env cfg d).1.temp = d.temp ∧
    (th_init_filter env cfg d).1.temp_filt = d.temp_filt := by
  unfold th_init_filter
  cases env.lpfInit cfg.lpf_fc d.temp <;> simp

/-- The `th_init` loop body leaves a channel's status untouched. -/
theorem th_init_ch_status {σ : Type} (env : Env σ) (cfg : ThCfg)
    (raws : ℕ → ℕ) (d : ThData σ) :
    (th_init_ch env cfg raws d).1.status = d.status := by
  unfold th_init_ch
  exact (th_init_filter_fields env cfg _).1

/-- The `th_init` loop body writes exactly the clamped resistance into
the channel's `res` field. -/
theorem th_init_ch_res {σ : Type} (env : Env σ) (cfg : ThCfg)
    (raws : ℕ → ℕ) (d : ThData σ) :
    (th_init_ch env cfg raws d).1.res =
      th_calc_resistance env.cmax cfg (raws cfg.adc_ch) := by
  unfold th_init_ch
  exact (th_init_filter_fields env cfg _).2.1

/-- The `th_init` loop never changes any channel's status. -/
theorem th_init_loop_status {σ : Type} {n : ℕ} (env : Env σ)
    (cfgT : Fin n → ThCfg) (raws : ℕ → ℕ) (l : List (Fin n))
    (d : Fin n → ThData σ) (th : Fin n) :
    ((th_init_loop env cfgT raws l d).1 th).status = (d th).status := by
  induction l generalizing d with
  | nil => rfl
  | cons th0 rest ih =>
    have hupd : ∀ v : ThData σ, v.status = (d th0).status →
        (Function.update d th0 v th).status = (d th).status := by
      intro v hv
      rcases eq_or_ne th th0 with h | h
      · subst h; rw [Function.update_same, hv]
      · rw [Function.update_noteq h]
    rcases hq : th_init_ch env (cfgT th0) raws (d th0) with ⟨dv, st⟩
    have hst : dv.status = (d th0).status := by
      have := th_init_ch_status env (cfgT th0) raws (d th0)
      rwa [hq] at this
    simp only [th_init_loop, hq]
    split
    · rw [ih]
      exact hupd dv hst
    · exact hupd dv hst

/-- Channels not in the processed list are untouched by the `th_init`
loop. -/
theorem th_init_loop_not_mem {σ : Type} {n : ℕ} (env : Env σ)
    (cfgT : Fin n → ThCfg) (raws : ℕ → ℕ) (l : List (Fin n))
    (d : Fin n → ThData σ) (th : Fin n) (hth : th ∉ l) :
    (th_init_loop env cfgT raws l d).1 th = d th := by
  induction l generalizing d with
  | nil => rfl
  | cons th0 rest ih =>
    have hne : th ≠ th0 := fun h => hth (h ▸ List.mem_cons_self th0 rest)
    have hrest : th ∉ rest := fun h => hth (List.mem_cons_of_mem th0 h)
    rcases hq : th_init_ch env (cfgT th0) raws (d th0) with ⟨dv, st⟩
    simp only [th_init_loop, hq]
    split
    · rw [ih _ hrest, Function.update_noteq hne]
    · simp only [Function.update_noteq hne]

/-- `th_limit_f32` lands inside `[mn, mx]` whenever `mn ≤ mx`. -/
theorem th_limit_f32_mem (x mn mx : ℚ) (h : mn ≤ mx) :
    mn ≤ th_limit_f32 x mn mx ∧ th_limit_f32 x mn mx ≤ mx := by
  unfold th_limit_f32
  split_ifs <;> constructor <;> linarith

/-- `th_calc_resistance` always lands inside the clamp interval of the
channel's sensor class. -/
theorem th_calc_resistance_mem (cmax adc_raw : ℕ) (cfg : ThCfg) :
    resMin cfg.type ≤ th_calc_resistance cmax cfg adc_raw ∧
    th_calc_resistance cmax cfg adc_raw ≤ resMax cfg.type := by
  rcases cfg with ⟨a, conn, pull, pu, pd, fc, ty, nb, nn, rmn, rmx, et⟩
  cases ty <;>
    exact th_limit_f32_mem _ _ _ (by norm_num [resMin, resMax])

/-- Every channel processed by a successful `th_init` loop ends with a
resistance in its class clamp interval. -/
theorem th_init_loop_res_mem {σ : Type} {n : ℕ} (env : Env σ)
    (cfgT : Fin n → ThCfg) (raws : ℕ → ℕ) (l : List (Fin n))
    (d : Fin n → ThData σ) (th : Fin n) (hmem : th ∈ l)
    (hok : (th_init_loop env cfgT raws l d).2 = ThStatus.ok) :
    resMin (cfgT th).type ≤ ((th_init_loop env cfgT raws l d).1 th).res ∧
    ((th_init_loop env cfgT raws l d).1 th).res ≤ resMax (cfgT th).type := by
  induction l generalizing d with
  | nil => cases hmem
  | cons th0 rest ih =>
    rcases hq : th_init_ch env (cfgT th0) raws (d th0) with ⟨dv, st⟩
    have hres : dv.res =
        th_calc_resistance env.cmax (cfgT th0) (raws (cfgT th0).adc_ch) := by
      have := th_init_ch_res env (cfgT th0) raws (d th0)
      rwa [hq] at this
    simp only [th_init_loop, hq] at hok ⊢
    by_cases hst : st = ThStatus.ok
    · rw [if_pos hst] at hok ⊢
      by_cases hmem' : th ∈ rest
      · exact ih _ hmem' hok
      · have hth0 : th = th0 := by
          rcases List.mem_cons.mp hmem with h | h
          · exact h
          · exact absurd h hmem'
        subst hth0
        rw [th_init_loop_not_mem env cfgT raws rest _ th hmem',
          Function.update_same, hres]
        exact th_calc_resistance_mem _ _ _
    · rw [if_neg hst] at hok
      cases hok

/-- The `th_init` loop body writes the freshly computed temperature into
the channel's `temp` field. -/
theorem th_init_ch_temp {σ : Type} (env : Env σ) (cfg : ThCfg)
    (raws : ℕ → ℕ) (d : ThData σ) :
    (th_init_ch env cfg raws d).1.temp =
      (th_calc_temperature env cfg (raws cfg.adc_ch)).2 := by
  unfold th_init_ch
  exact (th_init_filter_fields env cfg _).2.2.1

/-- The `th_init` loop body seeds the channel's `temp_filt` field with
the freshly computed temperature. -/
theorem th_init_ch_temp_filt {σ : Type} (env : Env σ) (cfg : ThCfg)
    (raws : ℕ → ℕ) (d : ThData σ) :
    (th_init_ch env cfg raws d).1.temp_filt =
      (th_calc_temperature env cfg (raws cfg.adc_ch)).2 := by
  unfold th_init_ch
  exact (th_init_filter_fields env cfg _).2.2.2

/-- After any run of the `th_init` loop (successful or stopped by an
LPF failure), each channel's data is either untouched, or holds exactly
the freshly computed resistance and temperature with the filtered
temperature seeded equal to it. -/
theorem th_init_loop_unchanged_or_fresh {σ : Type} {n : ℕ} (env : Env σ)
    (cfgT : Fin n → ThCfg) (raws : ℕ → ℕ) (l : List (Fin n))
    (d : Fin n → ThData σ) (th : Fin n) :
    (th_init_loop env cfgT raws l d).1 th = d th ∨
    (((th_init_loop env cfgT raws l d).1 th).res =
        th_calc_resistance env.cmax (cfgT th) (raws (cfgT th).adc_ch) ∧
      ((th_init_loop env cfgT raws l d).1 th).temp =
        (th_calc_temperature env (cfgT th) (raws (cfgT th).adc_ch)).2 ∧
      ((th_init_loop env cfgT raws l d).1 th).temp_filt =
        (th_calc_temperature env (cfgT th) (raws (cfgT th).adc_ch)).2) := by
  induction l generalizing d with
  | nil => exact Or.inl rfl
  | cons th0 rest ih =>
    rcases hq : th_init_ch env (cfgT th0) raws (d th0) with ⟨dv, st⟩
    have hfresh : dv.res =
        th_calc_resistance env.cmax (cfgT th0) (raws (cfgT th0).adc_ch) ∧
        dv.temp = (th_calc_temperature env (cfgT th0) (raws (cfgT th0).adc_ch)).2 ∧
        dv.temp_filt =
          (th_calc_temperature env (cfgT th0) (raws (cfgT th0).adc_ch)).2 := by
      have h1 := th_init_ch_res env (cfgT th0) raws (d th0)
      have h2 := th_init_ch_temp env (cfgT th0) raws (d th0)
      have h3 := th_init_ch_temp_filt env (cfgT th0) raws (d th0)
      rw [hq] at h1 h2 h3
      exact ⟨h1, h2, h3⟩
    simp only [th_init_loop, hq]
    split
    · rcases ih (Function.update d th0 dv) with h | h
      · rw [h]
        rcases eq_or_ne th th0 with he | he
        · subst he
          rw [Function.update_same]
          exact Or.inr hfresh
        · rw [Function.update_noteq he]
          exact Or.inl rfl
      · exact Or.inr h
    · rcases eq_or_ne th th0 with he | he
      · subst he
        simp only [Function.update_same]
        exact Or.inr hfresh
      · simp only [Function.update_noteq he]
        exact Or.inl trivial

/-- After `th_init` with a non-NULL provider table, each channel's data
is either untouched (config rejected, already initialized, or the loop
stopped before reaching it) or holds exactly the freshly computed
resistance and temperature with the filtered temperature seeded equal
to it. -/
theorem th_init_data_unchanged_or_fresh {σ : Type} {n : ℕ} (env : Env σ)
    (cfgT : Fin n → ThCfg) (raws : ℕ → ℕ) (s : ThState σ n) (th : Fin n) :
    (th_init env (some cfgT) raws s).1.data th = s.data th ∨
    (((th_init env (some cfgT) raws s).1.data th).res =
        th_calc_resistance env.cmax (cfgT th) (raws (cfgT th).adc_ch) ∧
      ((th_init env (some cfgT) raws s).1.data th).temp =
        (th_calc_temperature env (cfgT th) (raws (cfgT th).adc_ch)).2 ∧
      ((th_init env (some cfgT) raws s).1.data th).temp_filt =
        (th_calc_temperature env (cfgT th) (raws (cfgT th).adc_ch)).2) := by
  cases hb : s.is_init
  · simp only [th_init, hb, Bool.false_eq_true, if_false]
    by_cases hv : ∀ th : Fin n, ThCfgValid (cfgT th)
    · simp only [th_check_cfg_table, if_pos hv]
      by_cases hloop :
          (th_init_loop env cfgT raws (List.finRange n) s.data).2 = ThStatus.ok
      · rw [if_pos hloop]
        exact th_init_loop_unchanged_or_fresh env cfgT raws _ s.data th
      · rw [if_neg hloop]
        exact th_init_loop_unchanged_or_fresh env cfgT raws _ s.data th
    · simp only [th_check_cfg_table, if_neg hv]
      exact Or.inl trivial
  · simp only [th_init, hb, if_true]
    exact Or.inl trivial

end Thermistor

namespace Thermistor

/-- C6: after a real successful `th_init` and after every tick of
`th_hndl` on an initialized state, every channel's stored resistance
lies within the clamp bounds of its sensor class ([1, 1e7] for NTC,
[18.52, 390.48] for PT100, [114.13, 1937.74] for PT500,
[185.20, 3904.81] for PT1000), for every ADC input. -/
theorem C6_resistance_in_class_bounds {σ : Type} {n : ℕ} (env : Env σ)
    (cfgT : Fin n → ThCfg) (raws : ℕ → ℕ) (s : ThState σ n) :
    (s.is_init = false →
      (th_init env (some cfgT) raws s).2 = ThStatus.ok →
      ∀ th : Fin n,
        resMin (cfgT th).type ≤
            ((th_init env (some cfgT) raws s).1.data th).res ∧
          ((th_init env (some cfgT) raws s).1.data th).res ≤
            resMax (cfgT th).type) ∧
    (s.is_init = true → s.cfg_table = some cfgT →
      ∀ th : Fin n,
        resMin (cfgT th).type ≤ ((th_hndl env raws s).1.data th).res ∧
          ((th_hndl env raws s).1.data th).res ≤ resMax (cfgT th).type) := by
  constructor
  · intro hpre hok th
    simp only [th_init, hpre, Bool.false_eq_true, if_false] at hok ⊢
    by_cases hv : ∀ th : Fin n, ThCfgValid (cfgT th)
    · simp only [th_check_cfg_table, if_pos hv] at hok ⊢
      by_cases hloop :
          (th_init_loop env cfgT raws (List.finRange n) s.data).2 = ThStatus.ok
      · simp only [if_pos hloop] at hok ⊢
        exact th_init_loop_res_mem env cfgT raws _ s.data th
          (List.mem_finRange th) hloop
      · simp only [if_neg hloop] at hok
        cases hok
    · simp only [th_check_cfg_table, if_neg hv] at hok
      cases hok
  · intro hinit hcfg th
    simp only [th_hndl, hinit, if_true, hcfg]
    have : (th_hndl_ch env (cfgT th) raws (s.data th)).res =
        th_calc_resistance env.cmax (cfgT th) (raws (cfgT th).adc_ch) := rfl
    rw [this]
    exact th_calc_resistance_mem _ _ _

/-- Witness for C6: the single-channel environment `envEx` over
`cfgLowNtc`, initializing from `sUninit` and ticking `sRun`. -/
theorem C6_resistance_in_class_bounds_witness :
    (∀ th : Fin 1,
      resMin cfgLowNtc.type ≤
          ((th_init envEx (some fun _ => cfgLowNtc) (fun _ => 0)
            sUninit).1.data th).res ∧
        ((th_init envEx (some fun _ => cfgLowNtc) (fun _ => 0)
            sUninit).1.data th).res ≤ resMax cfgLowNtc.type) ∧
    (∀ th : Fin 1,
      resMin cfgLowNtc.type ≤
          ((th_hndl envEx (fun _ => 0) sRun).1.data th).res ∧
        ((th_hndl envEx (fun _ => 0) sRun).1.data th).res ≤
          resMax cfgLowNtc.type) := by
  have h := C6_resistance_in_class_bounds envEx
    (fun _ : Fin 1 => cfgLowNtc) (fun _ => 0) sUninit
  have h2 := C6_resistance_in_class_bounds envEx
    (fun _ : Fin 1 => cfgLowNtc) (fun _ => 0) sRun
  refine ⟨h.1 rfl ?_, h2.2 rfl rfl⟩
  simp [th_init, th_check_cfg_table, sUninit, ThCfgValid, cfgLowNtc,
    List.finRange, th_init_loop, th_init_ch, th_init_filter, envEx]

end Thermistor

namespace Thermistor

/-- C3 counterexample, refuting the original claim on both failure
paths.  (1) Starting from the pristine state (NULL stored config
pointer) with an invalid provider table (`lpf_fc = 0`), `th_init`
fails with ERROR but the stored configuration pointer has been
overwritten with the provider's table, i.e. it is no longer equal to
its pre-call value.  (2) With a valid table but a filter primitive
whose init fails (`envLpfFail`), `th_init` fails with ERROR yet the
channel's resistance, temperature and filtered temperature have been
overwritten with the freshly computed 1e6 Ω reading (pre-call they
were 0): the failed init leaves partial per-channel state. -/
theorem C3_config_pointer_overwritten :
    ((th_init envEx (some fun _ : Fin 1 => badCfg) (fun _ => 0)
        sUninit).2 = ThStatus.error ∧
      sUninit.cfg_table = none ∧
      (th_init envEx (some fun _ : Fin 1 => badCfg) (fun _ => 0)
        sUninit).1.cfg_table = some (fun _ : Fin 1 => badCfg)) ∧
    ((th_init envLpfFail (some fun _ : Fin 1 => cfgLowNtc) (fun _ => 0)
        sUninit).2 = ThStatus.error ∧
      (sUninit.data 0).res = 0 ∧ (sUninit.data 0).temp = 0 ∧
      (sUninit.data 0).temp_filt = 0 ∧
      ((th_init envLpfFail (some fun _ : Fin 1 => cfgLowNtc) (fun _ => 0)
        sUninit).1.data 0).res = 1000000 ∧
      ((th_init envLpfFail (some fun _ : Fin 1 => cfgLowNtc) (fun _ => 0)
        sUninit).1.data 0).temp = 1000000 ∧
      ((th_init envLpfFail (some fun _ : Fin 1 => cfgLowNtc) (fun _ => 0)
        sUninit).1.data 0).temp_filt = 1000000) := by
  constructor
  · refine ⟨?_, rfl, ?_⟩ <;>
      simp [th_init, th_check_cfg_table, ThCfgValid, badCfg, cfgLowNtc,
        sUninit]
  · refine ⟨?_, rfl, rfl, rfl, ?_, ?_, ?_⟩ <;>
      norm_num [th_init, th_check_cfg_table, ThCfgValid, th_init_loop,
        th_init_ch, th_init_filter, th_calc_temperature, th_calc_resistance,
        th_calc_res_single_pull, th_limit_f32, List.finRange, envLpfFail,
        envEx, cfgLowNtc, sUninit, dataZero, Function.update_same] <;>
      rfl

/-- C3 (amended): when `th_init` is called on an uninitialized module
and fails, the module stays uninitialized, every channel's status is
unchanged, and - when the failure is the configuration check - the
whole runtime array is unchanged; but the stored configuration pointer
is set to the provider's table (not left at its pre-call value), and
when the failure is an LPF init (table non-NULL and valid), each
channel's runtime data is either untouched (the loop stopped before
reaching it) or holds the freshly computed resistance and temperature
with the filtered temperature seeded equal to it - the channels
processed before the failing one keep those freshly computed values. -/
theorem C3_init_failure {σ : Type} {n : ℕ} (env : Env σ)
    (provider : Option (Fin n → ThCfg)) (raws : ℕ → ℕ) (s : ThState σ n)
    (hpre : s.is_init = false)
    (herr : (th_init env provider raws s).2 = ThStatus.error) :
    (th_init env provider raws s).1.is_init = false ∧
    (th_init env provider raws s).1.cfg_table = provider ∧
    (∀ th, ((th_init env provider raws s).1.data th).status =
      (s.data th).status) ∧
    (th_check_cfg_table provider = ThStatus.error →
      (th_init env provider raws s).1.data = s.data) ∧
    (∀ cfgT, provider = some cfgT → ∀ th,
      (th_init env provider raws s).1.data th = s.data th ∨
      (((th_init env provider raws s).1.data th).res =
          th_calc_resistance env.cmax (cfgT th) (raws (cfgT th).adc_ch) ∧
        ((th_init env provider raws s).1.data th).temp =
          (th_calc_temperature env (cfgT th) (raws (cfgT th).adc_ch)).2 ∧
        ((th_init env provider raws s).1.data th).temp_filt =
          (th_calc_temperature env (cfgT th) (raws (cfgT th).adc_ch)).2)) := by
  have hfresh : ∀ cfgT, provider = some cfgT → ∀ th,
      (th_init env provider raws s).1.data th = s.data th ∨
      (((th_init env provider raws s).1.data th).res =
          th_calc_resistance env.cmax (cfgT th) (raws (cfgT th).adc_ch) ∧
        ((th_init env provider raws s).1.data th).temp =
          (th_calc_temperature env (cfgT th) (raws (cfgT th).adc_ch)).2 ∧
        ((th_init env provider raws s).1.data th).temp_filt =
          (th_calc_temperature env (cfgT th) (raws (cfgT th).adc_ch)).2) := by
    intro cfgT hp th
    subst hp
    exact th_init_data_unchanged_or_fresh env cfgT raws s th
  have hmain : (th_init env provider raws s).1.is_init = false ∧
      (th_init env provider raws s).1.cfg_table = provider ∧
      (∀ th, ((th_init env provider raws s).1.data th).status =
        (s.data th).status) ∧
      (th_check_cfg_table provider = ThStatus.error →
        (th_init env provider raws s).1.data = s.data) := by
    simp only [th_init, hpre, Bool.false_eq_true, if_false] at herr ⊢
    rcases provider with _ | cfgT
    · simp [th_check_cfg_table]
    · by_cases hv : ∀ th : Fin n, ThCfgValid (cfgT th)
      · simp only [th_check_cfg_table, if_pos hv] at herr ⊢
        by_cases hloop :
            (th_init_loop env cfgT raws (List.finRange n) s.data).2 =
              ThStatus.ok
        · rw [if_pos hloop] at herr
          cases herr
        · rw [if_neg hloop] at herr ⊢
          refine ⟨rfl, rfl,
            fun th => th_init_loop_status env cfgT raws _ _ th,
            fun hchk => ?_⟩
          cases hchk
      · simp only [th_check_cfg_table, if_neg hv] at herr ⊢
        simp
  exact ⟨hmain.1, hmain.2.1, hmain.2.2.1, hmain.2.2.2, hfresh⟩

/-- Witness for C3's amended statement, at the config-check-failure
input (first three conjuncts) and at the LPF-init-failure input (last
conjunct). -/
theorem C3_init_failure_witness :
    (th_init envEx (some fun _ : Fin 1 => badCfg) (fun _ => 0)
        sUninit).1.is_init = false ∧
    (th_init envEx (some fun _ : Fin 1 => badCfg) (fun _ => 0)
        sUninit).1.cfg_table = some (fun _ : Fin 1 => badCfg) ∧
    (∀ th, ((th_init envEx (some fun _ : Fin 1 => badCfg) (fun _ => 0)
        sUninit).1.data th).status = (sUninit.data th).status) ∧
    (∀ th, (th_init envLpfFail (some fun _ : Fin 1 => cfgLowNtc) (fun _ => 0)
        sUninit).1.data th = sUninit.data th ∨
      (((th_init envLpfFail (some fun _ : Fin 1 => cfgLowNtc) (fun _ => 0)
          sUninit).1.data th).res =
          th_calc_resistance envLpfFail.cmax cfgLowNtc 0 ∧
        ((th_init envLpfFail (some fun _ : Fin 1 => cfgLowNtc) (fun _ => 0)
          sUninit).1.data th).temp =
          (th_calc_temperature envLpfFail cfgLowNtc 0).2 ∧
        ((th_init envLpfFail (some fun _ : Fin 1 => cfgLowNtc) (fun _ => 0)
          sUninit).1.data th).temp_filt =
          (th_calc_temperature envLpfFail cfgLowNtc 0).2)) := by
  have h := C3_init_failure envEx (some fun _ : Fin 1 => badCfg) (fun _ => 0)
    sUninit rfl
    (by simp [th_init, th_check_cfg_table, ThCfgValid, badCfg, cfgLowNtc,
      sUninit])
  have herr2 : (th_init envLpfFail (some fun _ : Fin 1 => cfgLowNtc)
      (fun _ => 0) sUninit).2 = ThStatus.error := by
    norm_num [th_init, th_check_cfg_table, ThCfgValid, th_init_loop,
      th_init_ch, th_init_filter, th_calc_temperature, th_calc_resistance,
      th_calc_res_single_pull, th_limit_f32, List.finRange, envLpfFail,
      envEx, cfgLowNtc, sUninit, dataZero, Function.update_same]
    rfl
  have h2 := C3_init_failure envLpfFail (some fun _ : Fin 1 => cfgLowNtc)
    (fun _ => 0) sUninit rfl herr2
  exact ⟨h.1, h.2.1, h.2.2.1, h2.2.2.2.2 (fun _ => cfgLowNtc) rfl⟩

end Thermistor

namespace Thermistor

/-- `th_init` never writes any channel's status field (only `temp`,
`temp_filt`, `res` and the LPF handle). -/
theorem th_init_preserves_status {σ : Type} {n : ℕ} (env : Env σ)
    (provider : Option (Fin n → ThCfg)) (raws : ℕ → ℕ) (s : ThState σ n)
    (th : Fin n) :
    ((th_init env provider raws s).1.data th).status = (s.data th).status := by
  cases hb : s.is_init
  · simp only [th_init, hb, Bool.false_eq_true, if_false]
    rcases provider with _ | cfgT
    · simp [th_check_cfg_table]
    · by_cases hv : ∀ th : Fin n, ThCfgValid (cfgT th)
      · simp only [th_check_cfg_table, if_pos hv]
        by_cases hloop :
            (th_init_loop env cfgT raws (List.finRange n) s.data).2 =
              ThStatus.ok
        · rw [if_pos hloop]
          exact th_init_loop_status env cfgT raws _ _ th
        · rw [if_neg hloop]
          exact th_init_loop_status env cfgT raws _ _ th
      · simp [th_check_cfg_table, if_neg hv]
  · simp only [th_init, hb, if_true]

/-- C10: on an initialized module, `th_deinit` returns OK, zeroes each
channel's raw and filtered temperature and clears the init flag, while
leaving each channel's resistance and status untouched; and a
subsequent `th_init` still leaves every channel's status (e.g. a
latched fault) unchanged. -/
theorem C10_deinit_keeps_res_status {σ : Type} {n : ℕ} (env : Env σ)
    (provider : Option (Fin n → ThCfg)) (raws : ℕ → ℕ) (s : ThState σ n)
    (hinit : s.is_init = true) :
    (th_deinit s).2 = ThStatus.ok ∧
    (th_deinit s).1.is_init = false ∧
    (∀ th, ((th_deinit s).1.data th).temp = 0 ∧
      ((th_deinit s).1.data th).temp_filt = 0 ∧
      ((th_deinit s).1.data th).res = (s.data th).res ∧
      ((th_deinit s).1.data th).status = (s.data th).status) ∧
    (∀ th, ((th_init env provider raws (th_deinit s).1).1.data th).status =
      (s.data th).status) := by
  have hd : th_deinit s =
      ({ is_init := false, cfg_table := s.cfg_table,
         data := fun th => { s.data th with temp := 0, temp_filt := 0 } },
        ThStatus.ok) := by
    simp only [th_deinit, hinit, if_true]
  refine ⟨by rw [hd], by rw [hd],
    fun th => ⟨by rw [hd], by rw [hd], by rw [hd], by rw [hd]⟩, fun th => ?_⟩
  rw [hd]
  exact th_init_preserves_status env provider raws _ th

/-- Witness for C10: the latched ERROR_OPEN of `sFault` survives
`th_deinit` and a subsequent `th_init`. -/
theorem C10_deinit_keeps_res_status_witness :
    ((th_deinit sFault).1.data 0).status = ThStatus.error_open ∧
    ((th_init envEx (some fun _ : Fin 1 => cfgLowNtc) (fun _ => 0)
        (th_deinit sFault).1).1.data 0).status = ThStatus.error_open := by
  have h := C10_deinit_keeps_res_status envEx
    (some fun _ : Fin 1 => cfgLowNtc) (fun _ => 0) sFault rfl
  constructor
  · have h2 := (h.2.2.1 0).2.2.2
    simpa [sFault, dataZero] using h2
  · have h2 := h.2.2.2 0
    simpa [sFault, dataZero] using h2

end Thermistor

namespace Thermistor

/-- C8 counterexample: on an initialized module with a valid channel
index whose stored status is a latched fault, `th_get_status` does not
return OK (it returns the stored ERROR_OPEN), contradicting the claim
that every query API call returns OK when its preconditions hold. -/
theorem C8_get_status_returns_fault :
    sFault.is_init = true ∧ (0 : ℕ) < 1 ∧
    th_get_status sFault 0 = ThStatus.error_open ∧
    th_get_status sFault 0 ≠ ThStatus.ok := by
  refine ⟨rfl, by norm_num, ?_, ?_⟩ <;>
    simp [th_get_status, sFault, dataZero]

/-- C8 (amended): every query API call returns the generic ERROR and
does not write through its output pointer when the module is not
initialized, the output pointer is NULL, or the channel index is out of
range; otherwise the pointer-returning getters return OK and write the
stored (converted) value, while `th_get_status` returns the channel's
stored status (OK only when no fault is recorded). -/
theorem C8_query_api {σ : Type} {n : ℕ} (s : ThState σ n) (th : ℕ)
    (p_null : Bool) :
    (¬(s.is_init = true ∧ p_null = false ∧ th < n) →
      th_get_degC s th p_null = (none, ThStatus.error) ∧
      th_get_degF s th p_null = (none, ThStatus.error) ∧
      th_get_kelvin s th p_null = (none, ThStatus.error) ∧
      th_get_resistance s th p_null = (none, ThStatus.error) ∧
      th_get_degC_filt s th p_null = (none, ThStatus.error) ∧
      th_get_degF_filt s th p_null = (none, ThStatus.error) ∧
      th_get_kelvin_filt s th p_null = (none, ThStatus.error)) ∧
    (¬(s.is_init = true ∧ th < n) → th_get_status s th = ThStatus.error) ∧
    (∀ h : th < n, s.is_init = true → p_null = false →
      th_get_degC s th p_null =
        (some ((s.data ⟨th, h⟩).temp), ThStatus.ok) ∧
      th_get_degF s th p_null =
        (some (1.8 * (s.data ⟨th, h⟩).temp + 32), ThStatus.ok) ∧
      th_get_kelvin s th p_null =
        (some ((s.data ⟨th, h⟩).temp + 273.15), ThStatus.ok) ∧
      th_get_resistance s th p_null =
        (some ((s.data ⟨th, h⟩).res), ThStatus.ok) ∧
      th_get_degC_filt s th p_null =
        (some ((s.data ⟨th, h⟩).temp_filt), ThStatus.ok) ∧
      th_get_degF_filt s th p_null =
        (some (1.8 * (s.data ⟨th, h⟩).temp_filt + 32), ThStatus.ok) ∧
      th_get_kelvin_filt s th p_null =
        (some ((s.data ⟨th, h⟩).temp_filt + 273.15), ThStatus.ok)) ∧
    (∀ h : th < n, s.is_init = true →
      th_get_status s th = (s.data ⟨th, h⟩).status) := by
  refine ⟨fun hno => ?_, fun hno => ?_, fun h h1 h2 => ?_, fun h h1 => ?_⟩
  · unfold th_get_degC th_get_degF th_get_kelvin th_get_resistance
      th_get_degC_filt th_get_degF_filt th_get_kelvin_filt
    rw [dif_neg hno, dif_neg hno, dif_neg hno, dif_neg hno, dif_neg hno,
      dif_neg hno, dif_neg hno]
    exact ⟨rfl, rfl, rfl, rfl, rfl, rfl, rfl⟩
  · unfold th_get_status
    rw [dif_neg hno]
  · have hyes : s.is_init = true ∧ p_null = false ∧ th < n := ⟨h1, h2, h⟩
    unfold th_get_degC th_get_degF th_get_kelvin th_get_resistance
      th_get_degC_filt th_get_degF_filt th_get_kelvin_filt
    rw [dif_pos hyes, dif_pos hyes, dif_pos hyes, dif_pos hyes,
      dif_pos hyes, dif_pos hyes, dif_pos hyes]
    exact ⟨rfl, rfl, rfl, rfl, rfl, rfl, rfl⟩
  · have hyes : s.is_init = true ∧ th < n := ⟨h1, h⟩
    unfold th_get_status
    rw [dif_pos hyes]

/-- Witness for C8's amended statement on `sFault`, channel 0, non-NULL
pointer. -/
theorem C8_query_api_witness :
    th_get_degC sFault 0 false = (some ((sFault.data 0).temp), ThStatus.ok) ∧
    th_get_status sFault 0 = (sFault.data 0).status := by
  have h := C8_query_api sFault 0 false
  exact ⟨(h.2.2.1 (by norm_num) rfl rfl).1, h.2.2.2 (by norm_num) rfl⟩

/-- C1 on the code at a failing input: a PERMANENT NTC channel whose
filtered temperature saturates above range latches ERROR_SHORT on the
first tick, but the very next tick of `th_hndl` stores OK again (the
classifier's local status starts at `eTH_OK` and, when the stored
status is not OK, the PERMANENT guard skips classification and the
initial OK is stored) - the latched fault is not absorbing. -/
theorem C1_permanent_fault_not_latched :
    cfgLowNtc.err_type = ThErrType.permanent ∧
    ((th_hndl envEx (fun _ => 0) sRun).1.data 0).status =
      ThStatus.error_short ∧
    ((th_hndl envEx (fun _ => 0)
        (th_hndl envEx (fun _ => 0) sRun).1).1.data 0).status =
      ThStatus.ok := by
  refine ⟨rfl, ?_, ?_⟩
  · norm_num [th_hndl, th_hndl_ch, th_calc_temperature, th_calc_resistance,
      th_calc_res_single_pull, th_limit_f32, th_status_hndl, envEx, sRun,
      cfgLowNtc, dataZero]
  · norm_num [th_hndl, th_hndl_ch, th_calc_temperature, th_calc_resistance,
      th_calc_res_single_pull, th_limit_f32, th_status_hndl, envEx, sRun,
      cfgLowNtc, dataZero]
    rintro (h | h) <;> simp at h

end Thermistor
